import Mathlib

/-!
Verification of the config-driven status reporter from the
prometheus-playground repository (src/service_monitor/main.go).

The Go program is shallowly embedded here:
  - the TOML configuration record becomes the structure `Config`;
  - the labeled service-status gauge vector becomes `GaugeState`, a map
    from label value to an optional rational gauge value (`none` means
    the label carries no value, as after `Reset`);
  - the filesystem is a map from path to an optional `File` carrying a
    modification time and an optional content (`content = none` models a
    file that stats successfully but cannot be read);
  - the external TOML decoder is an abstract parameter
    `parse : String → Option Config` since its code is a third-party
    library, not part of this repository;
  - one iteration of the polling watcher loop becomes `watchStep`, which
    also reports whether `loadConfig` was invoked in that iteration;
  - the startup sequence of `main` becomes `startup`;
  - the health handler becomes `healthHandler`, a pure function of the
    two random draws made by the handler, threading the metric state.
Gauge and histogram values are modeled as rationals; every numeric value
the program stores in them (0, 1, 0.1, 0.01, 0.05) is exactly
representable in binary64 up to the usual literal rounding, and nothing
in the claims depends on rounding behavior.
-/

namespace ServiceMonitor

/-- Configuration structure matching the TOML file: field `up_services`
and field `down_services` of the Go `Config` struct. -/
structure Config where
  UpServices : List String
  DownServices : List String
deriving Repr, DecidableEq

/-- State of the `service_monitor_up` gauge vector: for each value of the
`service` label, the gauge value currently set, or `none` when the label
carries no value. -/
def GaugeState : Type := String → Option ℚ

/-- The gauge vector right after `serviceStatus.Reset()`: no label carries
a value.  The argument is the state being reset; `Reset` discards it. -/
def resetVec (_g : GaugeState) : GaugeState := fun _ => none

/-- `serviceStatus.WithLabelValues(label).Set(v)` on gauge state `g`. -/
def setLabel (g : GaugeState) (label : String) (v : ℚ) : GaugeState :=
  fun s => if s = label then some v else g s

/-- The loop `for _, service := range names { serviceStatus.WithLabelValues(service).Set(v) }`. -/
def setAll (g : GaugeState) (names : List String) (v : ℚ) : GaugeState :=
  names.foldl (fun acc name => setLabel acc name v) g

/-- `updateServiceMetrics`: reset the gauge vector, set every up service
to 1, then set every down service to 0. -/
def updateServiceMetrics (config : Config) (g : GaugeState) : GaugeState :=
  setAll (setAll (resetVec g) config.UpServices 1) config.DownServices 0

/-- A file on disk: its modification time (abstracted to a natural
number) and its content; `content = none` models a file that can be
statted but not opened or read. -/
structure File where
  modTime : Nat
  content : Option String
deriving Repr, DecidableEq

/-- The filesystem: a map from path to the file stored there, if any. -/
def FS : Type := String → Option File

/-- `os.Stat(path)`: the modification time when the file exists. -/
def statFile (fs : FS) (path : String) : Option Nat :=
  (fs path).map File.modTime

/-- `os.Open` followed by `os.ReadFile`: the content when the file exists
and is readable. -/
def readFile (fs : FS) (path : String) : Option String :=
  (fs path).bind File.content

/-- `os.WriteFile(path, content, perm)`: store the content at the path
with the current time as modification time. -/
def writeFile (fs : FS) (path content : String) (now : Nat) : FS :=
  fun p => if p = path then some ⟨now, some content⟩ else fs p

/-- The two error classes `loadConfig` can produce: the wrapped open or
read error, and the wrapped TOML unmarshal error. -/
inductive LoadError where
  | IOFailure : LoadError
  | ParseFailure : LoadError
deriving Repr, DecidableEq

/-- `loadConfig`: open and read the file at `path`, then unmarshal its
content with the TOML decoder `parse`. -/
def loadConfig (fs : FS) (parse : String → Option Config) (path : String) :
    Except LoadError Config :=
  match readFile fs path with
  | none => .error .IOFailure
  | some data =>
    match parse data with
    | none => .error .ParseFailure
    | some config => .ok config

/-- The mutable state the watcher maintains: the global `lastModTime`
variable and the service-status gauge vector. -/
structure WatchState where
  lastModTime : Nat
  gauge : GaugeState

/-- One iteration of the `for` loop of `watchConfig`, acting on the
filesystem as seen during that iteration.  The boolean records whether
`loadConfig` (and hence possibly `updateServiceMetrics`) was invoked. -/
def watchStep (parse : String → Option Config) (path : String) (fs : FS)
    (st : WatchState) : WatchState × Bool :=
  match statFile fs path with
  | none => (st, false)
  | some modTime =>
    if modTime ≠ st.lastModTime then
      match loadConfig fs parse path with
      | .error _ => (st, true)
      | .ok config =>
        (⟨modTime, updateServiceMetrics config st.gauge⟩, true)
    else (st, false)

/-- The default configuration text `main` writes when the config file is
absent at startup. -/
def defaultConfigText : String :=
  "# Service Monitor Configuration\n\n# Services that are currently up\nup_services = [\n  \"api-gateway\",\n  \"auth-service\",\n  \"user-service\",\n  \"payment-service\"\n]\n\n# Services that are currently down\ndown_services = [\n  \"notification-service\",\n  \"recommendation-engine\"\n]"

/-- The hard-coded fallback roster `main` uses when the initial load
fails: up service list with the single entry default-service, empty down
service list. -/
def fallbackConfig : Config :=
  ⟨["default-service"], []⟩

/-- The startup step of `main` that writes the default config file when
none exists at the configured path. -/
def ensureDefaultConfig (fs : FS) (path : String) (now : Nat) : FS :=
  match fs path with
  | none => writeFile fs path defaultConfigText now
  | some _ => fs

/-- The startup sequence of `main` after the environment lookup: write a
default config file if absent, load the initial config falling back to
the hard-coded roster on failure, record the modification time if the
stat succeeds (the Go zero time is modeled as 0), and initialize the
gauge vector from the chosen config.  It returns the filesystem after
the possible default write together with the initial watch state. -/
def startup (fs : FS) (parse : String → Option Config) (path : String)
    (now : Nat) : FS × WatchState :=
  let fs1 := ensureDefaultConfig fs path now
  let config :=
    match loadConfig fs1 parse path with
    | .error _ => fallbackConfig
    | .ok config => config
  let lastMod :=
    match statFile fs1 path with
    | some t => t
    | none => 0
  (fs1, ⟨lastMod, updateServiceMetrics config (fun _ => none)⟩)

/-- The scalar metrics touched by the health handler. -/
structure Metrics where
  requestsProcessed : Nat
  activeRequests : ℚ
  errorRate : ℚ
  durationObservations : List ℚ
deriving Repr, DecidableEq

/-- An HTTP response: status code and body. -/
structure HttpResponse where
  status : Nat
  body : String
deriving Repr, DecidableEq

/-- The health handler registered on the root path, as a function of the
random draw used for the error decision and of the measured request
duration.  It increments the active-request gauge on entry; on exit the
deferred functions run in reverse registration order: first observe the
duration and increment the request counter, then decrement the
active-request gauge. -/
def healthHandler (draw : ℚ) (duration : ℚ) (m : Metrics) :
    Metrics × HttpResponse :=
  let m1 := { m with activeRequests := m.activeRequests + 1 }
  let (m2, resp) :=
    if draw < 1/10 then
      ({ m1 with errorRate := 1/10 },
       (⟨500, "Internal Server Error"⟩ : HttpResponse))
    else
      ({ m1 with errorRate := 0 },
       (⟨200, "Service Monitor is running!"⟩ : HttpResponse))
  let m3 := { m2 with
    durationObservations := duration :: m2.durationObservations,
    requestsProcessed := m2.requestsProcessed + 1 }
  let m4 := { m3 with activeRequests := m3.activeRequests - 1 }
  (m4, resp)

/-- `prometheus.LinearBuckets(start, width, count)`: `count` buckets, the
first upper bound at `start`, each subsequent one `width` higher, by
repeated addition as in the library. -/
def linearBuckets : ℚ → ℚ → Nat → List ℚ
  | _, _, 0 => []
  | start, width, count + 1 => start :: linearBuckets (start + width) width count

/-- The bucket upper bounds of the `service_monitor_request_duration_seconds`
histogram: `prometheus.LinearBuckets(0.01, 0.05, 10)`. -/
def requestDurationBuckets : List ℚ :=
  linearBuckets (1/100) (1/20) 10

/-- Evaluation of a set-all loop: a label gets the written value exactly
when it occurs in the list, and is untouched otherwise. -/
theorem setAll_apply (g : GaugeState) (names : List String) (v : ℚ)
    (s : String) :
    setAll g names v s = if s ∈ names then some v else g s := by
  induction names generalizing g with
  | nil => simp [setAll]
  | cons n ns ih =>
    show setAll (setLabel g n v) ns v s = _
    rw [ih]
    by_cases hmem : s ∈ ns
    · simp [hmem]
    · by_cases heq : s = n <;> simp [hmem, heq, setLabel]

/-- Evaluation of `updateServiceMetrics` at one label. -/
theorem updateServiceMetrics_apply (config : Config) (g : GaugeState)
    (s : String) :
    updateServiceMetrics config g s =
      if s ∈ config.DownServices then some 0
      else if s ∈ config.UpServices then some 1
      else none := by
  unfold updateServiceMetrics
  rw [setAll_apply, setAll_apply]
  by_cases hd : s ∈ config.DownServices <;> simp [hd, resetVec]

/-- Claim C1: for every roster, `updateServiceMetrics` sets the gauge with
label `service=name` to 1 for every name in the up list and to 0 for
every name in the down list; for a name in both lists, the down list is
applied last and wins, so the final value is 0. -/
theorem C1_apply_roster_sets_values (g : GaugeState) (config : Config)
    (s : String) :
    (s ∈ config.DownServices → updateServiceMetrics config g s = some 0) ∧
    (s ∈ config.UpServices → s ∉ config.DownServices →
      updateServiceMetrics config g s = some 1) := by
  constructor
  · intro hd
    rw [updateServiceMetrics_apply]
    simp [hd]
  · intro hu hd
    rw [updateServiceMetrics_apply]
    simp [hu, hd]

/-- Witness for C1 at a concrete roster: the name overlap is resolved to
the down value, and a pure up name gets 1. -/
theorem C1_apply_roster_sets_values_witness :
    updateServiceMetrics ⟨["api-gateway", "auth-service"], ["auth-service"]⟩
      (fun _ => none) "auth-service" = some 0 ∧
    updateServiceMetrics ⟨["api-gateway", "auth-service"], ["auth-service"]⟩
      (fun _ => none) "api-gateway" = some 1 :=
  ⟨(C1_apply_roster_sets_values (fun _ => none)
      ⟨["api-gateway", "auth-service"], ["auth-service"]⟩ "auth-service").1
      (by decide),
   (C1_apply_roster_sets_values (fun _ => none)
      ⟨["api-gateway", "auth-service"], ["auth-service"]⟩ "api-gateway").2
      (by decide) (by decide)⟩

/-- Claim C2: after `updateServiceMetrics`, the labels carrying a value
are exactly the names of the current roster, whatever gauge state held
before the call: the reset clears every previously set label. -/
theorem C2_reset_before_apply (g : GaugeState) (config : Config)
    (s : String) :
    (updateServiceMetrics config g s).isSome ↔
      s ∈ config.UpServices ∨ s ∈ config.DownServices := by
  rw [updateServiceMetrics_apply]
  by_cases hd : s ∈ config.DownServices <;>
    by_cases hu : s ∈ config.UpServices <;> simp [hd, hu]

/-- Claim C9: the gauge state produced by `updateServiceMetrics` is a
function of the roster alone; two runs from arbitrary prior gauge states
yield identical results, since the reset discards the prior state. -/
theorem C9_result_independent_of_prior_state (config : Config)
    (g1 g2 : GaugeState) :
    updateServiceMetrics config g1 = updateServiceMetrics config g2 := rfl

/-- Claim C3: `loadConfig` fails with the IOFailure error when the file
at the path is missing or unreadable, fails with the ParseFailure error
when the content does not decode as the two string lists, and on either
failure the watcher leaves the gauge values and the last-seen
modification time unchanged. -/
theorem C3_loadConfig_failure_modes (fs : FS)
    (parse : String → Option Config) (path : String) :
    (readFile fs path = none →
      loadConfig fs parse path = .error .IOFailure) ∧
    (∀ data, readFile fs path = some data → parse data = none →
      loadConfig fs parse path = .error .ParseFailure) ∧
    (∀ e, loadConfig fs parse path = .error e →
      ∀ st : WatchState, (watchStep parse path fs st).1 = st) := by
  refine ⟨fun hread => ?_, fun data hread hparse => ?_, fun e herr st => ?_⟩
  · simp [loadConfig, hread]
  · simp [loadConfig, hread, hparse]
  · unfold watchStep
    cases hstat : statFile fs path with
    | none => rfl
    | some modTime =>
      by_cases hmod : modTime ≠ st.lastModTime <;> simp [hmod, herr]

/-- Witness for C3: a missing file yields the IOFailure error, a file
whose content the decoder rejects yields the ParseFailure error, and in
the latter case one watcher iteration leaves the state unchanged. -/
theorem C3_loadConfig_failure_modes_witness :
    loadConfig (fun _ => none) (fun _ => some fallbackConfig) "/app/config/config.toml" =
      .error .IOFailure ∧
    loadConfig (fun _ => some ⟨5, some "not toml"⟩) (fun _ => none)
      "/app/config/config.toml" = .error .ParseFailure ∧
    (watchStep (fun _ => none) "/app/config/config.toml"
      (fun _ => some ⟨5, some "not toml"⟩) ⟨0, fun _ => none⟩).1 =
      (⟨0, fun _ => none⟩ : WatchState) :=
  ⟨(C3_loadConfig_failure_modes (fun _ => none)
      (fun _ => some fallbackConfig) "/app/config/config.toml").1 rfl,
   (C3_loadConfig_failure_modes (fun _ => some ⟨5, some "not toml"⟩)
      (fun _ => none) "/app/config/config.toml").2.1 "not toml" rfl rfl,
   (C3_loadConfig_failure_modes (fun _ => some ⟨5, some "not toml"⟩)
      (fun _ => none) "/app/config/config.toml").2.2 .ParseFailure rfl
      ⟨0, fun _ => none⟩⟩

/-- Claim C4: in a watcher iteration where the stat succeeds and the
observed modification time equals the last-seen value, no reload
happens: `loadConfig` is not invoked and the state is returned
unchanged. -/
theorem C4_no_reload_when_unmodified (parse : String → Option Config)
    (path : String) (fs : FS) (st : WatchState) (t : Nat)
    (hstat : statFile fs path = some t) (heq : t = st.lastModTime) :
    watchStep parse path fs st = (st, false) := by
  unfold watchStep
  simp [hstat, heq]

/-- Witness for C4 at a concrete filesystem whose file carries the
already-seen modification time. -/
theorem C4_no_reload_when_unmodified_witness :
    watchStep (fun _ => some fallbackConfig) "/app/config/config.toml"
      (fun _ => some ⟨7, some "up_services = []"⟩)
      ⟨7, fun _ => none⟩ = (⟨7, fun _ => none⟩, false) :=
  C4_no_reload_when_unmodified (fun _ => some fallbackConfig)
    "/app/config/config.toml" (fun _ => some ⟨7, some "up_services = []"⟩)
    ⟨7, fun _ => none⟩ 7 rfl rfl

/-- Claim C10: the last-seen modification time is updated only by a
successful load; when the file has changed but `loadConfig` fails, the
iteration invokes `loadConfig`, leaves the state at its previous value,
and therefore every subsequent poll of the same filesystem reattempts
the load. -/
theorem C10_lastModTime_updated_only_on_success
    (parse : String → Option Config) (path : String) (fs : FS)
    (st : WatchState) :
    ((watchStep parse path fs st).1.lastModTime ≠ st.lastModTime →
      ∃ config, loadConfig fs parse path = .ok config) ∧
    (∀ t e, statFile fs path = some t → t ≠ st.lastModTime →
      loadConfig fs parse path = .error e →
      watchStep parse path fs st = (st, true) ∧
      ∀ n, (fun s => (watchStep parse path fs s).1)^[n] st = st) := by
  constructor
  · intro hne
    by_contra hno
    push_neg at hno
    apply hne
    cases hstat : statFile fs path with
    | none => simp [watchStep, hstat]
    | some modTime =>
      by_cases hmod : modTime = st.lastModTime
      · simp [watchStep, hstat, hmod]
      · cases hload : loadConfig fs parse path with
        | error e => simp [watchStep, hstat, hmod, hload]
        | ok config => exact absurd hload (hno config)
  · intro t e hstat hne herr
    have hstep : watchStep parse path fs st = (st, true) := by
      unfold watchStep
      simp [hstat, hne, herr]
    refine ⟨hstep, fun n => ?_⟩
    induction n with
    | zero => rfl
    | succ k ih =>
      rw [Function.iterate_succ_apply, hstep, ih]

/-- Witness for C10: a changed file whose content the decoder rejects is
reattempted and the state is unchanged across three polls. -/
theorem C10_lastModTime_updated_only_on_success_witness :
    watchStep (fun _ => none) "/app/config/config.toml"
      (fun _ => some ⟨9, some "bad"⟩) ⟨3, fun _ => none⟩ =
      ((⟨3, fun _ => none⟩ : WatchState), true) ∧
    (fun s => (watchStep (fun _ => none) "/app/config/config.toml"
      (fun _ => some ⟨9, some "bad"⟩) s).1)^[3] ⟨3, fun _ => none⟩ =
      (⟨3, fun _ => none⟩ : WatchState) :=
  ⟨((C10_lastModTime_updated_only_on_success (fun _ => none)
      "/app/config/config.toml" (fun _ => some ⟨9, some "bad"⟩)
      ⟨3, fun _ => none⟩).2 9 .ParseFailure rfl (by decide) rfl).1,
   ((C10_lastModTime_updated_only_on_success (fun _ => none)
      "/app/config/config.toml" (fun _ => some ⟨9, some "bad"⟩)
      ⟨3, fun _ => none⟩).2 9 .ParseFailure rfl (by decide) rfl).2 3⟩

/-- Claim C5: when the random draw is below 0.1 the health handler sets
the error-rate gauge to 0.1 and responds 500 with body Internal Server
Error; otherwise it sets the error-rate gauge to 0 and responds 200. -/
theorem C5_health_error_branch (draw duration : ℚ) (m : Metrics) :
    (draw < 1/10 →
      (healthHandler draw duration m).2 =
        (⟨500, "Internal Server Error"⟩ : HttpResponse) ∧
      (healthHandler draw duration m).1.errorRate = 1/10) ∧
    (¬ draw < 1/10 →
      (healthHandler draw duration m).2.status = 200 ∧
      (healthHandler draw duration m).1.errorRate = 0) := by
  simp only [healthHandler]
  split_ifs with h
  · exact ⟨fun _ => ⟨rfl, rfl⟩, fun hc => absurd h hc⟩
  · exact ⟨fun hc => absurd hc h, fun _ => ⟨rfl, rfl⟩⟩

/-- Witness for C5: a draw of 0 takes the failure branch, a draw of 1/2
takes the success branch. -/
theorem C5_health_error_branch_witness :
    ((healthHandler 0 (1/4) ⟨0, 0, 0, []⟩).2 =
      (⟨500, "Internal Server Error"⟩ : HttpResponse) ∧
     (healthHandler 0 (1/4) ⟨0, 0, 0, []⟩).1.errorRate = 1/10) ∧
    ((healthHandler (1/2) (1/4) ⟨0, 0, 0, []⟩).2.status = 200 ∧
     (healthHandler (1/2) (1/4) ⟨0, 0, 0, []⟩).1.errorRate = 0) :=
  ⟨(C5_health_error_branch 0 (1/4) ⟨0, 0, 0, []⟩).1 (by norm_num),
   (C5_health_error_branch (1/2) (1/4) ⟨0, 0, 0, []⟩).2 (by norm_num)⟩

/-- Claim C7: over one completed call, the health handler leaves the
active-request gauge at its prior value (one increment on entry, one
decrement on exit), increments the request counter by exactly one, and
records exactly one duration observation. -/
theorem C7_health_metric_balance (draw duration : ℚ) (m : Metrics) :
    (healthHandler draw duration m).1.activeRequests = m.activeRequests ∧
    (healthHandler draw duration m).1.requestsProcessed =
      m.requestsProcessed + 1 ∧
    (healthHandler draw duration m).1.durationObservations =
      duration :: m.durationObservations := by
  simp only [healthHandler]
  split_ifs with h
  · refine ⟨?_, rfl, rfl⟩
    show m.activeRequests + 1 - 1 = m.activeRequests
    ring
  · refine ⟨?_, rfl, rfl⟩
    show m.activeRequests + 1 - 1 = m.activeRequests
    ring

/-- Closed form of the repeated-addition bucket construction. -/
theorem linearBuckets_eq (start width : ℚ) (count : Nat) :
    linearBuckets start width count =
      (List.range count).map (fun i : Nat => start + width * (i : ℚ)) := by
  induction count generalizing start with
  | zero => rfl
  | succ n ih =>
    show start :: linearBuckets (start + width) width n = _
    rw [ih, List.range_succ_eq_map, List.map_cons, List.map_map]
    refine List.cons_eq_cons.mpr ⟨by push_cast; ring, ?_⟩
    apply List.map_congr_left
    intro i _
    show start + width + width * (i : ℚ) = start + width * ((i + 1 : Nat) : ℚ)
    push_cast
    ring

/-- Claim C8: the request-duration histogram is configured with exactly
10 linear buckets whose upper bounds are 0.01 + 0.05 * i for i in
0..9. -/
theorem C8_duration_histogram_buckets :
    requestDurationBuckets.length = 10 ∧
    requestDurationBuckets =
      (List.range 10).map (fun i : Nat => 1/100 + (1/20) * (i : ℚ)) := by
  have h : requestDurationBuckets =
      (List.range 10).map (fun i : Nat => 1/100 + (1/20) * (i : ℚ)) :=
    linearBuckets_eq (1/100) (1/20) 10
  exact ⟨by rw [h]; simp, h⟩

/-- Claim C6: if the config file is absent at startup, the default
roster text is written before the first load; if the initial load still
fails, startup proceeds with the hard-coded fallback roster instead of
terminating; and after startup a failing load never ends the watcher,
whose iteration always returns the previous state on a load error. -/
theorem C6_startup_resilience (fs : FS) (parse : String → Option Config)
    (path : String) (now : Nat) :
    (fs path = none →
      (startup fs parse path now).1 path =
        some ⟨now, some defaultConfigText⟩) ∧
    (∀ e, loadConfig (ensureDefaultConfig fs path now) parse path =
        .error e →
      (startup fs parse path now).2.gauge =
        updateServiceMetrics fallbackConfig (fun _ => none)) ∧
    (∀ fs2 : FS, ∀ st : WatchState, ∀ e,
      loadConfig fs2 parse path = .error e →
      (watchStep parse path fs2 st).1 = st) := by
  refine ⟨fun habs => ?_, fun e herr => ?_, fun fs2 st e herr => ?_⟩
  · simp [startup, ensureDefaultConfig, habs, writeFile]
  · simp [startup, herr]
  · cases hstat : statFile fs2 path with
    | none => simp [watchStep, hstat]
    | some modTime =>
      by_cases hmod : modTime = st.lastModTime
      · simp [watchStep, hstat, hmod]
      · simp [watchStep, hstat, hmod, herr]

/-- Witness for C6 on the empty filesystem with an always-failing
decoder: the default text is written, the fallback roster is applied,
and a later watch iteration on a fresh failing filesystem keeps its
state. -/
theorem C6_startup_resilience_witness :
    (startup (fun _ => none) (fun _ => none) "/app/config/config.toml" 4).1
      "/app/config/config.toml" = some ⟨4, some defaultConfigText⟩ ∧
    (startup (fun _ => none) (fun _ => none) "/app/config/config.toml" 4).2.gauge =
      updateServiceMetrics fallbackConfig (fun _ => none) ∧
    (watchStep (fun _ => none) "/app/config/config.toml"
      (fun _ => some ⟨8, none⟩) ⟨4, fun _ => none⟩).1 =
      (⟨4, fun _ => none⟩ : WatchState) :=
  ⟨(C6_startup_resilience (fun _ => none) (fun _ => none)
      "/app/config/config.toml" 4).1 rfl,
   (C6_startup_resilience (fun _ => none) (fun _ => none)
      "/app/config/config.toml" 4).2.1 .ParseFailure rfl,
   (C6_startup_resilience (fun _ => none) (fun _ => none)
      "/app/config/config.toml" 4).2.2 (fun _ => some ⟨8, none⟩)
      ⟨4, fun _ => none⟩ .IOFailure rfl⟩

end ServiceMonitor
